import Mathlib

/-!
Verification of the remote job execution lifecycle implemented by
`BaseRemoteExecutionProcessor.execute` in
`pygeoapi/process/base_remote_execution.py`.

The Python method is shallowly embedded as a pure function over an explicit
filesystem state, an environment supplying the collaborator callbacks
(`prepare_input`, `prepare_output`) and the HTTP responses the remote executor
would return, plus a trace of the observable side effects (directory
creation/removal, HTTP calls, sleeps, logging).
-/

namespace RemoteExec

/-- Opaque map of code input parameters produced by `prepare_input`. -/
abbrev CodeParams := List (String × String)

/-- Caller supplied input payload (`data` argument of `execute`). -/
abbrev Data := List (String × String)

/-- Optional output-selection payload (`outputs` argument of `execute`). -/
abbrev OutputsSel := List String

/-- Opaque outputs map returned to the caller. -/
abbrev OutVal := List (String × String)

/-- Python exceptions observable in `execute`. All constructors model
subclasses of `Exception` (so an `except Exception:` clause catches each of
them). `ProcessorExecuteErrorMsg` is `ProcessorExecuteError(message)` built
from a parsed string; `ProcessorExecuteErrorResponse` is
`ProcessorExecuteError(response)` built from the raw response object. -/
inductive PyError where
  | ProcessorGenericError (msg : String)
  | ProcessorExecuteErrorMsg (msg : String)
  | ProcessorExecuteErrorResponse (raw : String)
  | FileExistsError (path : String)
  | KeyError (key : String)
  | JSONDecodeError
  | Other (tag : String)
  deriving DecidableEq, Repr

/-- Nested `job_info` object of the remote executor response body.
`end_processing` is `Option Bool` so that a body whose `job_info` map lacks
the key can be represented (`none`); reading an absent key raises `KeyError`
in Python. `exit_code` and `std_err` are always present in the bodies the
claims quantify over. -/
structure JobInfoBody where
  end_processing : Option Bool
  exit_code : Int
  std_err : String
  deriving DecidableEq, Repr

/-- Remote executor response body (`RemoteJobInfo`). -/
structure RemoteJobInfo where
  job_id : String
  job_info : JobInfoBody
  deriving DecidableEq, Repr

/-- An HTTP response as observed by `execute`: `ok` is `response.ok`,
`jsonMessage` is the result of attempting `response.json()[. Message .]`
(`none` when the body is not JSON or lacks the key, in which case that
expression raises), `jsonInfo` is the result of parsing the body as a
`RemoteJobInfo` (`none` when `response.json()` raises), and `raw` stands for
the response object itself as it appears when passed to an exception
constructor. -/
structure HttpResponse where
  ok : Bool
  jsonMessage : Option String
  jsonInfo : Option RemoteJobInfo
  raw : String
  deriving DecidableEq, Repr

/-- Filesystem state: the set of existing directories, each carrying a `Nat`
fingerprint of its contents so that preservation of contents is expressible. -/
structure FS where
  dirs : List (String × Nat)
  deriving DecidableEq, Repr

/-- Whether directory `p` exists. -/
def FS.existsDir (fs : FS) (p : String) : Bool :=
  fs.dirs.any (fun d => d.1 == p)

/-- Contents fingerprint of directory `p`, when it exists. -/
def FS.contentOf (fs : FS) (p : String) : Option Nat :=
  (fs.dirs.find? (fun d => d.1 == p)).map (fun d => d.2)

/-- Models `os.mkdir(path)`: raises `FileExistsError` when the directory
already exists, otherwise creates it empty (fingerprint 0). -/
def mkdir (fs : FS) (p : String) : Except PyError FS :=
  if fs.existsDir p then .error (.FileExistsError p)
  else .ok ⟨(p, 0) :: fs.dirs⟩

/-- Models `shutil.rmtree(path)`: recursively removes the directory and all
its contents. -/
def rmtree (fs : FS) (p : String) : FS :=
  ⟨fs.dirs.filter (fun d => d.1 != p)⟩

/-- Models `str(Path(base) / leaf)`. -/
def pathJoin (base leaf : String) : String := base ++ "/" ++ leaf

/-- Models `urllib.parse.urljoin(base, rel)` for the base URLs used here:
the relative part replaces everything after the last slash of the base. -/
def urljoin (base rel : String) : String :=
  String.mk ((base.toList.reverse.dropWhile (fun c => c != Char.ofNat 47)).reverse) ++ rel

/-- Observable side effects of `execute`, in program order. -/
inductive Effect where
  | mkdirCall (path : String)
  | rmtreeCall (path : String)
  | httpPost (url : String) (job_id : String) (synch_execution : Bool)
      (code_input_params : CodeParams)
  | httpGet (url : String)
  | sleepCall (seconds : Nat)
  | logError (msg : String)
  deriving DecidableEq, Repr

/-- Result of one call to `execute`. `stillPolling` marks a run of the
unbounded poll loop that has consumed every response the environment provides
without reaching a terminal one: the Python loop would keep running. -/
inductive Outcome where
  | ok (mimetype : String) (outputs : OutVal)
  | raised (e : PyError)
  | stillPolling
  deriving DecidableEq, Repr

/-- Processor configuration and bound state used by `execute`:
`private_processor_dir`, `url_executor`, `polling_time`,
`remote_execute_synch` from `processor_def`, and the `job_id` instance
attribute (`none` models Python `None`, i.e. `set_job_id` never called). -/
structure Config where
  private_processor_dir : String
  url_executor : String
  polling_time : Nat
  remote_execute_synch : Bool
  job_id : Option String
  deriving Repr

/-- Environment of one `execute` run: the two collaborator callbacks of the
specialised subclass, the response to the submission POST, and the successive
responses to the polling GETs. -/
structure Env where
  prepare_input : Data → String → Option OutputsSel → Except PyError CodeParams
  prepare_output : RemoteJobInfo → String → Option OutputsSel →
    Except PyError (String × OutVal)
  postResponse : HttpResponse
  pollResponses : List HttpResponse

/-- Message of the `ProcessorGenericError` raised when `job_id` is unset. -/
def missingJobIdMessage : String :=
  "Missing call to \x27set_job_id()\x27 before \x27execute()\x27."

/-- Message raised to the caller when the terminal job info has a non-zero
exit code: contains only the job id and the exit code. -/
def callerJobFailureMessage (info : RemoteJobInfo) : String :=
  "The job \x27" ++ info.job_id ++ "\x27 exited with code "
    ++ toString info.job_info.exit_code

/-- Message written to the internal log in the same situation: additionally
carries the full `std_err` text. -/
def logJobFailureMessage (info : RemoteJobInfo) : String :=
  "The job \x27" ++ info.job_id ++ "\x27 exited with code: "
    ++ toString info.job_info.exit_code
    ++ "\nError message:\n" ++ info.job_info.std_err

/-- Modelled from the spec: the classes `ProcessorGenericError` and
`ProcessorExecuteError` are defined in `pygeoapi/process/base.py`, which is
not among these sources. The error taxonomy of the spec treats them as
ordinary application errors propagated to the caller, so they are modelled —
as in upstream pygeoapi, where `ProcessorGenericError` derives from
`Exception` — as `Exception` subclasses; likewise for the built-in errors
(`FileExistsError`, `KeyError`, JSON decoding errors). This predicate records
that every modelled error is caught by an `except Exception:` clause. -/
def exceptionCaught (_e : PyError) : Bool := true

/-- Models a `try: body except Exception: handler` block: an error raised by
the body transfers control to the handler exactly when its class derives from
`Exception`. -/
def tryExceptException (body : Except PyError α) (handler : Except PyError α) :
    Except PyError α :=
  match body with
  | .ok a => .ok a
  | .error e => if exceptionCaught e then handler else .error e

/-- Body of the error-response `try` block (source lines 184-186 and
207-209): evaluate `message = response.json()[. Message .]` (raising when
that fails) and then `raise ProcessorExecuteError(message)`. The body always
raises, hence the `Empty` value type. -/
def errorResponseBody (resp : HttpResponse) : Except PyError Empty :=
  match resp.jsonMessage with
  | none => .error (.KeyError "Message")
  | some message => .error (.ProcessorExecuteErrorMsg message)

/-- Error actually raised by `execute` on a non-success HTTP response, for
both the submission branch (lines 180-189) and the poll branch (lines
206-211): the `try` body raises in every case (either the parse fails or the
body itself raises `ProcessorExecuteError(message)`, which is an `Exception`
subclass), so the `except Exception:` handler always runs and raises
`ProcessorExecuteError(response)`. -/
def failureResponseError (resp : HttpResponse) : PyError :=
  match tryExceptException (errorResponseBody resp)
      (.error (.ProcessorExecuteErrorResponse resp.raw)) with
  | .ok e => e.elim
  | .error e => e

/-- Result of the polling phase. -/
inductive PollResult where
  | raised (e : PyError)
  | finished (info : RemoteJobInfo)
  | exhausted
  deriving DecidableEq, Repr

/-- The asynchronous poll loop (source lines 200-215), consuming the
environment responses in order: sleep, GET `job_info/<job_id>`; on a
non-success response raise via `failureResponseError`; on success parse the
body and exit when `job_info[. end_processing .]` is truthy, else repeat.
An exhausted response list models the loop still running. -/
def pollLoop (url_executor job_id : String) (polling_time : Nat) :
    List HttpResponse → List Effect × PollResult
  | [] => ([], .exhausted)
  | resp :: rest =>
    let url := urljoin url_executor ("job_info/" ++ job_id)
    let pre : List Effect := [.sleepCall polling_time, .httpGet url]
    if resp.ok then
      match resp.jsonInfo with
      | none => (pre, .raised .JSONDecodeError)
      | some info =>
        match info.job_info.end_processing with
        | none => (pre, .raised (.KeyError "end_processing"))
        | some b =>
          if b then (pre, .finished info)
          else
            let step := pollLoop url_executor job_id polling_time rest
            (pre ++ step.1, step.2)
    else
      (pre, .raised (failureResponseError resp))

/-- Tail of `execute` after a terminal `RemoteJobInfo` is obtained (source
lines 217-234): on non-zero exit code log the full message and raise the
sanitized one; otherwise call `prepare_output` and return its pair. -/
def finishJob (env : Env) (fs : FS) (working_dir : String)
    (outputs : Option OutputsSel) (info : RemoteJobInfo) :
    Outcome × FS × List Effect :=
  if info.job_info.exit_code ≠ 0 then
    (.raised (.ProcessorExecuteErrorMsg (callerJobFailureMessage info)), fs,
      [.logError (logJobFailureMessage info)])
  else
    match env.prepare_output info working_dir outputs with
    | .error e => (.raised e, fs, [])
    | .ok (mimetype, process_outputs) => (.ok mimetype process_outputs, fs, [])

/-- Shallow embedding of `BaseRemoteExecutionProcessor.execute` (source lines
153-234). Returns the outcome, the final filesystem state, and the trace of
observable effects. Python truthiness of `self.job_id` is modelled exactly:
`None` and the empty string are falsy. In the submission-failure branch the
`shutil.rmtree` runs inside the `try` before the raise, and the raised error
is computed by `failureResponseError`. -/
def execute (cfg : Config) (env : Env) (fs : FS) (data : Data)
    (outputs : Option OutputsSel) : Outcome × FS × List Effect :=
  match cfg.job_id with
  | none => (.raised (.ProcessorGenericError missingJobIdMessage), fs, [])
  | some jid =>
    if jid.isEmpty then
      (.raised (.ProcessorGenericError missingJobIdMessage), fs, [])
    else
      let working_dir := pathJoin cfg.private_processor_dir jid
      match mkdir fs working_dir with
      | .error e => (.raised e, fs, [.mkdirCall working_dir])
      | .ok fs1 =>
        match env.prepare_input data working_dir outputs with
        | .error ex =>
          (.raised ex, rmtree fs1 working_dir,
            [.mkdirCall working_dir, .rmtreeCall working_dir])
        | .ok code_input_params =>
          let execute_url := urljoin cfg.url_executor "execute"
          let resp := env.postResponse
          let tr : List Effect := [.mkdirCall working_dir,
            .httpPost execute_url jid cfg.remote_execute_synch code_input_params]
          if resp.ok then
            if cfg.remote_execute_synch then
              match resp.jsonInfo with
              | none => (.raised .JSONDecodeError, fs1, tr)
              | some info =>
                let fin := finishJob env fs1 working_dir outputs info
                (fin.1, fin.2.1, tr ++ fin.2.2)
            else
              let pl := pollLoop cfg.url_executor jid cfg.polling_time
                env.pollResponses
              match pl.2 with
              | .raised e => (.raised e, fs1, tr ++ pl.1)
              | .exhausted => (.stillPolling, fs1, tr ++ pl.1)
              | .finished info =>
                let fin := finishJob env fs1 working_dir outputs info
                (fin.1, fin.2.1, tr ++ pl.1 ++ fin.2.2)
          else
            (.raised (failureResponseError resp), rmtree fs1 working_dir,
              tr ++ [.rmtreeCall working_dir])

/-! Helper lemmas about the filesystem model. -/

/-- Filtering out every entry at path `p` leaves no entry at path `p`. -/
theorem filter_ne_any_eq_false (l : List (String × Nat)) (p : String) :
    (l.filter (fun d => d.1 != p)).any (fun d => d.1 == p) = false := by
  induction l with
  | nil => rfl
  | cons a t ih =>
    by_cases h : a.1 = p
    · simp only [List.filter]
      rw [show (a.1 != p) = false by simp [h]]
      exact ih
    · simp only [List.filter]
      rw [show (a.1 != p) = true by simp [h]]
      simp only [List.any_cons, ih, Bool.or_false]
      simp [h]

/-- After `rmtree fs p`, directory `p` no longer exists. -/
theorem rmtree_not_existsDir (fs : FS) (p : String) :
    (rmtree fs p).existsDir p = false :=
  filter_ne_any_eq_false fs.dirs p

/-- A freshly created directory exists. -/
theorem existsDir_after_mkdir (fs : FS) (p : String) :
    (FS.mk ((p, 0) :: fs.dirs)).existsDir p = true := by
  simp [FS.existsDir]

/-! Concrete fixtures used by witnesses and the failing-input evaluation. -/

/-- A prepare_input callback that always succeeds with an empty map. -/
def okPrepareInput : Data → String → Option OutputsSel → Except PyError CodeParams :=
  fun _ _ _ => .ok []

/-- A prepare_output callback that always succeeds. -/
def okPrepareOutput : RemoteJobInfo → String → Option OutputsSel →
    Except PyError (String × OutVal) :=
  fun _ _ _ => .ok ("application/json", [("result", "42")])

/-- HTTP 400 submission response with body containing a Message field. -/
def resp400 : HttpResponse := ⟨false, some "bad params", none, "response[400]"⟩

/-- C1 failing-input environment: synchronous submission rejected with 400. -/
def envC1 : Env := ⟨okPrepareInput, okPrepareOutput, resp400, []⟩

/-- Synchronous configuration bound to job id abc123. -/
def cfgSync : Config := ⟨"/data/proc", "http://executor/api/", 3, true, some "abc123"⟩

/-! Claim theorems. -/

/-- C5: calling `execute` with no job id bound (`set_job_id` never called, so
`self.job_id` is `None`) raises a `ProcessorGenericError` immediately: the
filesystem is unchanged and the effect trace is empty, so no directory was
created and no network operation was performed. -/
theorem execute_without_job_id (ppd url : String) (pt : Nat) (sync : Bool)
    (env : Env) (fs : FS) (data : Data) (outs : Option OutputsSel) :
    execute ⟨ppd, url, pt, sync, none⟩ env fs data outs =
      (.raised (.ProcessorGenericError missingJobIdMessage), fs, []) := rfl

/-- C9: when the working directory `<private_processor_dir>/<job_id>` already
exists, `execute` raises `FileExistsError` from `os.mkdir` and the filesystem
is returned unchanged, so the pre-existing directory and its contents are
intact. -/
theorem execute_existing_dir_fails (ppd url : String) (pt : Nat) (sync : Bool)
    (jid : String) (env : Env) (fs : FS) (data : Data) (outs : Option OutputsSel)
    (hjid : jid.isEmpty = false)
    (hex : fs.existsDir (pathJoin ppd jid) = true) :
    execute ⟨ppd, url, pt, sync, some jid⟩ env fs data outs =
      (.raised (.FileExistsError (pathJoin ppd jid)), fs,
        [.mkdirCall (pathJoin ppd jid)]) := by
  simp [execute, mkdir, hjid, hex]

/-- Witness for C9 at a concrete pre-existing directory with contents tag 7. -/
theorem execute_existing_dir_fails_witness :
    execute ⟨"/data/proc", "http://executor/api/", 3, true, some "abc123"⟩
        ⟨okPrepareInput, okPrepareOutput, resp400, []⟩
        ⟨[("/data/proc/abc123", 7)]⟩ [] none =
      (.raised (.FileExistsError "/data/proc/abc123"),
        ⟨[("/data/proc/abc123", 7)]⟩, [.mkdirCall "/data/proc/abc123"]) := by
  exact execute_existing_dir_fails "/data/proc" "http://executor/api/" 3 true
    "abc123" ⟨okPrepareInput, okPrepareOutput, resp400, []⟩
    ⟨[("/data/proc/abc123", 7)]⟩ [] none (by decide) (by decide)

/-- C1: evaluation of `execute` at the failing input — a synchronous
submission that returns HTTP 400 with body whose Message field parses to
"bad params". The inner `raise ProcessorExecuteError(message)` of source
lines 180-189 sits inside its own `try`, whose `except Exception:` clause
catches it (ProcessorExecuteError derives from Exception), so the error
actually raised is `ProcessorExecuteError(response)` and the parsed message
"bad params" is never surfaced, contrary to the claim and to the comments in
the source. -/
theorem submission_message_never_surfaced :
    (execute cfgSync envC1 ⟨[]⟩ [] none).1 =
        .raised (.ProcessorExecuteErrorResponse "response[400]") ∧
      (execute cfgSync envC1 ⟨[]⟩ [] none).1 ≠
        .raised (.ProcessorExecuteErrorMsg "bad params") := by
  constructor
  · rfl
  · decide

/-- C6: when `prepare_input` raises any error whatsoever, `execute` removes
the working directory it has just created and re-raises exactly the original
error object: the outcome carries `ex` unchanged, the working directory no
longer exists, and no network effect appears in the trace. -/
theorem prepare_input_error_cleans_up (ppd url : String) (pt : Nat)
    (sync : Bool) (jid : String) (env : Env) (fs : FS) (data : Data)
    (outs : Option OutputsSel) (ex : PyError)
    (hjid : jid.isEmpty = false)
    (hnew : fs.existsDir (pathJoin ppd jid) = false)
    (hpi : env.prepare_input data (pathJoin ppd jid) outs = .error ex) :
    execute ⟨ppd, url, pt, sync, some jid⟩ env fs data outs =
      (.raised ex, rmtree ⟨(pathJoin ppd jid, 0) :: fs.dirs⟩ (pathJoin ppd jid),
        [.mkdirCall (pathJoin ppd jid), .rmtreeCall (pathJoin ppd jid)]) ∧
    ((execute ⟨ppd, url, pt, sync, some jid⟩ env fs data outs).2.1).existsDir
        (pathJoin ppd jid) = false := by
  have hmain : execute ⟨ppd, url, pt, sync, some jid⟩ env fs data outs =
      (.raised ex, rmtree ⟨(pathJoin ppd jid, 0) :: fs.dirs⟩ (pathJoin ppd jid),
        [.mkdirCall (pathJoin ppd jid), .rmtreeCall (pathJoin ppd jid)]) := by
    simp [execute, mkdir, hjid, hnew, hpi]
  refine ⟨hmain, ?_⟩
  rw [hmain]
  exact rmtree_not_existsDir _ _

/-- A prepare_input callback that always raises a given error. -/
def failingPrepareInput (ex : PyError) :
    Data → String → Option OutputsSel → Except PyError CodeParams :=
  fun _ _ _ => .error ex

/-- Witness for C6 at a concrete always-failing `prepare_input`. -/
theorem prepare_input_error_cleans_up_witness :
    execute ⟨"/data/proc", "http://executor/api/", 3, true, some "abc123"⟩
        ⟨failingPrepareInput (.Other "validation failed"), okPrepareOutput,
          resp400, []⟩ ⟨[]⟩ [] none =
      (.raised (.Other "validation failed"),
        rmtree ⟨[("/data/proc/abc123", 0)]⟩ "/data/proc/abc123",
        [.mkdirCall "/data/proc/abc123", .rmtreeCall "/data/proc/abc123"]) ∧
    ((execute ⟨"/data/proc", "http://executor/api/", 3, true, some "abc123"⟩
        ⟨failingPrepareInput (.Other "validation failed"), okPrepareOutput,
          resp400, []⟩ ⟨[]⟩ [] none).2.1).existsDir "/data/proc/abc123" = false := by
  exact prepare_input_error_cleans_up "/data/proc" "http://executor/api/" 3
    true "abc123"
    ⟨failingPrepareInput (.Other "validation failed"), okPrepareOutput,
      resp400, []⟩ ⟨[]⟩ [] none (.Other "validation failed")
    (by decide) (by decide) rfl

/-- C2: when the submission POST returns a non-success HTTP status, `execute`
raises (with the error computed by `failureResponseError`) and the working
directory created for this job no longer exists afterwards. -/
theorem submission_failure_removes_dir (ppd url : String) (pt : Nat)
    (sync : Bool) (jid : String) (env : Env) (fs : FS) (data : Data)
    (outs : Option OutputsSel) (ps : CodeParams)
    (hjid : jid.isEmpty = false)
    (hnew : fs.existsDir (pathJoin ppd jid) = false)
    (hpi : env.prepare_input data (pathJoin ppd jid) outs = .ok ps)
    (hok : env.postResponse.ok = false) :
    (execute ⟨ppd, url, pt, sync, some jid⟩ env fs data outs).1 =
        .raised (failureResponseError env.postResponse) ∧
      ((execute ⟨ppd, url, pt, sync, some jid⟩ env fs data outs).2.1).existsDir
        (pathJoin ppd jid) = false := by
  have hmain : execute ⟨ppd, url, pt, sync, some jid⟩ env fs data outs =
      (.raised (failureResponseError env.postResponse),
        rmtree ⟨(pathJoin ppd jid, 0) :: fs.dirs⟩ (pathJoin ppd jid),
        [.mkdirCall (pathJoin ppd jid),
          .httpPost (urljoin url "execute") jid sync ps,
          .rmtreeCall (pathJoin ppd jid)]) := by
    simp [execute, mkdir, hjid, hnew, hpi, hok]
  rw [hmain]
  exact ⟨rfl, rmtree_not_existsDir _ _⟩

/-- Witness for C2: the concrete HTTP 400 submission of `envC1`. -/
theorem submission_failure_removes_dir_witness :
    (execute cfgSync envC1 ⟨[]⟩ [] none).1 =
        .raised (failureResponseError envC1.postResponse) ∧
      ((execute cfgSync envC1 ⟨[]⟩ [] none).2.1).existsDir
        "/data/proc/abc123" = false := by
  exact submission_failure_removes_dir "/data/proc" "http://executor/api/" 3
    true "abc123" envC1 ⟨[]⟩ [] none [] (by decide) (by decide) rfl rfl

/-- Copy of a `RemoteJobInfo` with the `std_err` field replaced. -/
def withStdErr (info : RemoteJobInfo) (s : String) : RemoteJobInfo :=
  ⟨info.job_id, ⟨info.job_info.end_processing, info.job_info.exit_code, s⟩⟩

/-- Copy of a `RemoteJobInfo` with the `end_processing` field replaced
(`none` models a `job_info` map lacking the key altogether). -/
def withEndProcessing (info : RemoteJobInfo) (ep : Option Bool) : RemoteJobInfo :=
  ⟨info.job_id, ⟨ep, info.job_info.exit_code, info.job_info.std_err⟩⟩

/-- Copy of an environment whose submission response body parses to the given
`RemoteJobInfo`. -/
def withPostInfo (env : Env) (i : RemoteJobInfo) : Env :=
  ⟨env.prepare_input, env.prepare_output,
    ⟨env.postResponse.ok, env.postResponse.jsonMessage, some i,
      env.postResponse.raw⟩,
    env.pollResponses⟩

/-- Whether an effect is an HTTP GET (a poll request). -/
def isHttpGet : Effect → Bool
  | .httpGet _ => true
  | _ => false

/-- C4: when the terminal job info has a non-zero exit code, `execute` raises
`ProcessorExecuteError` with exactly `callerJobFailureMessage info`; that
message contains the job id and the exit code as substrings, and it is
invariant under any change of `std_err` — the error-stream text can only
reach the internal log, never the caller. -/
theorem job_failure_message_sanitized (ppd url : String) (pt : Nat)
    (jid : String) (env : Env) (fs : FS) (data : Data) (outs : Option OutputsSel)
    (ps : CodeParams) (info : RemoteJobInfo)
    (hjid : jid.isEmpty = false)
    (hnew : fs.existsDir (pathJoin ppd jid) = false)
    (hpi : env.prepare_input data (pathJoin ppd jid) outs = .ok ps)
    (hok : env.postResponse.ok = true)
    (hinfo : env.postResponse.jsonInfo = some info)
    (hec : info.job_info.exit_code ≠ 0) :
    (execute ⟨ppd, url, pt, true, some jid⟩ env fs data outs).1 =
        .raised (.ProcessorExecuteErrorMsg (callerJobFailureMessage info)) ∧
      (∃ rest, callerJobFailureMessage info =
        "The job \x27" ++ info.job_id ++ rest) ∧
      (∃ pre, callerJobFailureMessage info =
        pre ++ toString info.job_info.exit_code) ∧
      (∀ s, callerJobFailureMessage (withStdErr info s) =
        callerJobFailureMessage info) := by
  refine ⟨?_, ⟨"\x27 exited with code " ++ toString info.job_info.exit_code,
    ?_⟩, ⟨"The job \x27" ++ info.job_id
    ++ "\x27 exited with code ", rfl⟩, fun s => rfl⟩
  · simp [execute, mkdir, finishJob, hjid, hnew, hpi, hok, hinfo, hec]
  · simp [callerJobFailureMessage, String.append_assoc]

/-- Terminal job info with non-zero exit code and secret stderr text. -/
def failedInfo : RemoteJobInfo := ⟨"abc123", ⟨some true, 1, "boom"⟩⟩

/-- HTTP 200 response whose body parses to `failedInfo`. -/
def respFailed : HttpResponse := ⟨true, none, some failedInfo, "response[200]"⟩

/-- Witness for C4 at the concrete failing job `failedInfo`. -/
theorem job_failure_message_sanitized_witness :
    (execute cfgSync ⟨okPrepareInput, okPrepareOutput, respFailed, []⟩
        ⟨[]⟩ [] none).1 =
        .raised (.ProcessorExecuteErrorMsg (callerJobFailureMessage failedInfo)) ∧
      (∃ rest, callerJobFailureMessage failedInfo =
        "The job \x27" ++ failedInfo.job_id ++ rest) ∧
      (∃ pre, callerJobFailureMessage failedInfo =
        pre ++ toString failedInfo.job_info.exit_code) ∧
      (∀ s, callerJobFailureMessage (withStdErr failedInfo s) =
        callerJobFailureMessage failedInfo) := by
  exact job_failure_message_sanitized "/data/proc" "http://executor/api/" 3
    "abc123" ⟨okPrepareInput, okPrepareOutput, respFailed, []⟩ ⟨[]⟩ [] none
    [] failedInfo (by decide) (by decide) rfl rfl rfl (by decide)

/-- C8: in synchronous mode with a successful submission whose body has exit
code zero, `execute` returns exactly the pair produced by `prepare_output`
applied to the submission response body; the trace shows a single HTTP call
(the POST — no GET ever happens) and the working directory still exists. -/
theorem sync_success_returns_prepare_output (ppd url : String) (pt : Nat)
    (jid : String) (env : Env) (fs : FS) (data : Data) (outs : Option OutputsSel)
    (ps : CodeParams) (info : RemoteJobInfo) (m : String) (o : OutVal)
    (hjid : jid.isEmpty = false)
    (hnew : fs.existsDir (pathJoin ppd jid) = false)
    (hpi : env.prepare_input data (pathJoin ppd jid) outs = .ok ps)
    (hok : env.postResponse.ok = true)
    (hinfo : env.postResponse.jsonInfo = some info)
    (hec : info.job_info.exit_code = 0)
    (hpo : env.prepare_output info (pathJoin ppd jid) outs = .ok (m, o)) :
    execute ⟨ppd, url, pt, true, some jid⟩ env fs data outs =
      (.ok m o, ⟨(pathJoin ppd jid, 0) :: fs.dirs⟩,
        [.mkdirCall (pathJoin ppd jid),
          .httpPost (urljoin url "execute") jid true ps]) ∧
    ((execute ⟨ppd, url, pt, true, some jid⟩ env fs data outs).2.1).existsDir
      (pathJoin ppd jid) = true := by
  have hmain : execute ⟨ppd, url, pt, true, some jid⟩ env fs data outs =
      (.ok m o, ⟨(pathJoin ppd jid, 0) :: fs.dirs⟩,
        [.mkdirCall (pathJoin ppd jid),
          .httpPost (urljoin url "execute") jid true ps]) := by
    simp [execute, mkdir, finishJob, hjid, hnew, hpi, hok, hinfo, hec, hpo]
  rw [hmain]
  exact ⟨rfl, existsDir_after_mkdir fs (pathJoin ppd jid)⟩

/-- Terminal job info with exit code zero. -/
def doneInfo : RemoteJobInfo := ⟨"abc123", ⟨some true, 0, ""⟩⟩

/-- HTTP 200 response whose body parses to `doneInfo`. -/
def respDone : HttpResponse := ⟨true, none, some doneInfo, "response[200]"⟩

/-- Witness for C8: concrete synchronous run that succeeds. -/
theorem sync_success_returns_prepare_output_witness :
    execute cfgSync ⟨okPrepareInput, okPrepareOutput, respDone, []⟩ ⟨[]⟩ [] none =
      (.ok "application/json" [("result", "42")],
        ⟨[("/data/proc/abc123", 0)]⟩,
        [.mkdirCall "/data/proc/abc123",
          .httpPost (urljoin "http://executor/api/" "execute") "abc123" true []]) ∧
    ((execute cfgSync ⟨okPrepareInput, okPrepareOutput, respDone, []⟩
        ⟨[]⟩ [] none).2.1).existsDir "/data/proc/abc123" = true := by
  exact sync_success_returns_prepare_output "/data/proc" "http://executor/api/"
    3 "abc123" ⟨okPrepareInput, okPrepareOutput, respDone, []⟩ ⟨[]⟩ [] none
    [] doneInfo "application/json" [("result", "42")]
    (by decide) (by decide) rfl rfl rfl rfl rfl

/-- C10: in synchronous mode the submission response body is terminal
unconditionally and `end_processing` is never inspected: for every value of
that field (`some true`, `some false`, or absent), a non-zero exit code makes
`execute` raise the job-failure error, and the trace contains no HTTP GET. -/
theorem sync_ignores_end_processing (ppd url : String) (pt : Nat)
    (jid : String) (env : Env) (fs : FS) (data : Data) (outs : Option OutputsSel)
    (ps : CodeParams) (info : RemoteJobInfo)
    (hjid : jid.isEmpty = false)
    (hnew : fs.existsDir (pathJoin ppd jid) = false)
    (hpi : env.prepare_input data (pathJoin ppd jid) outs = .ok ps)
    (hok : env.postResponse.ok = true)
    (hec : info.job_info.exit_code ≠ 0) :
    ∀ ep : Option Bool,
      (execute ⟨ppd, url, pt, true, some jid⟩
          (withPostInfo env (withEndProcessing info ep)) fs data outs).1 =
        .raised (.ProcessorExecuteErrorMsg (callerJobFailureMessage info)) ∧
      ((execute ⟨ppd, url, pt, true, some jid⟩
          (withPostInfo env (withEndProcessing info ep)) fs data outs).2.2).filter
        isHttpGet = [] := by
  intro ep
  have hmain : execute ⟨ppd, url, pt, true, some jid⟩
      (withPostInfo env (withEndProcessing info ep)) fs data outs =
      (.raised (.ProcessorExecuteErrorMsg (callerJobFailureMessage info)),
        ⟨(pathJoin ppd jid, 0) :: fs.dirs⟩,
        [.mkdirCall (pathJoin ppd jid),
          .httpPost (urljoin url "execute") jid true ps,
          .logError (logJobFailureMessage (withEndProcessing info ep))]) := by
    simp [execute, withPostInfo, withEndProcessing, mkdir, finishJob,
      callerJobFailureMessage, hjid, hnew, hpi, hok, hec]
  rw [hmain]
  exact ⟨rfl, by simp [List.filter, isHttpGet]⟩

/-- Witness for C10: the failing job with `end_processing` absent (`none`). -/
theorem sync_ignores_end_processing_witness :
    (execute cfgSync
        (withPostInfo ⟨okPrepareInput, okPrepareOutput, respFailed, []⟩
          (withEndProcessing failedInfo none)) ⟨[]⟩ [] none).1 =
      .raised (.ProcessorExecuteErrorMsg (callerJobFailureMessage failedInfo)) ∧
    ((execute cfgSync
        (withPostInfo ⟨okPrepareInput, okPrepareOutput, respFailed, []⟩
          (withEndProcessing failedInfo none)) ⟨[]⟩ [] none).2.2).filter
      isHttpGet = [] := by
  exact sync_ignores_end_processing "/data/proc" "http://executor/api/" 3
    "abc123" ⟨okPrepareInput, okPrepareOutput, respFailed, []⟩ ⟨[]⟩ [] none
    [] failedInfo (by decide) (by decide) rfl rfl (by decide) none

/-- An in-progress poll response: HTTP success whose body reports
`end_processing = false`. -/
def IsProgressResponse (r : HttpResponse) : Prop :=
  r.ok = true ∧ ∃ i, r.jsonInfo = some i ∧
    i.job_info.end_processing = some false

/-- The poll loop raises `failureResponseError bad` as soon as it meets the
first non-success response `bad`, after any number of in-progress responses. -/
theorem pollLoop_fails_on_bad_response (url jid : String) (pt : Nat)
    (pre : List HttpResponse) (bad : HttpResponse) (rest : List HttpResponse)
    (hbad : bad.ok = false)
    (hpre : ∀ r ∈ pre, IsProgressResponse r) :
    (pollLoop url jid pt (pre ++ bad :: rest)).2 =
      .raised (failureResponseError bad) := by
  induction pre with
  | nil => simp [pollLoop, hbad]
  | cons r t ih =>
    obtain ⟨hok, i, hji, hep⟩ := hpre r (by simp)
    simp only [List.cons_append]
    simp [pollLoop, hok, hji, hep, ih (fun x hx => hpre x (by simp [hx]))]

/-- C3: in asynchronous mode, when a poll GET returns a non-success HTTP
status (after any number of in-progress polls), `execute` raises and the
working directory still exists afterwards — the poll-failure path performs no
`rmtree`, unlike the submission-failure path. -/
theorem poll_failure_retains_dir (ppd url : String) (pt : Nat) (jid : String)
    (env : Env) (fs : FS) (data : Data) (outs : Option OutputsSel)
    (ps : CodeParams) (pre : List HttpResponse) (bad : HttpResponse)
    (rest : List HttpResponse)
    (hjid : jid.isEmpty = false)
    (hnew : fs.existsDir (pathJoin ppd jid) = false)
    (hpi : env.prepare_input data (pathJoin ppd jid) outs = .ok ps)
    (hok : env.postResponse.ok = true)
    (hpoll : env.pollResponses = pre ++ bad :: rest)
    (hbad : bad.ok = false)
    (hpre : ∀ r ∈ pre, IsProgressResponse r) :
    (execute ⟨ppd, url, pt, false, some jid⟩ env fs data outs).1 =
        .raised (failureResponseError bad) ∧
      ((execute ⟨ppd, url, pt, false, some jid⟩ env fs data outs).2.1).existsDir
        (pathJoin ppd jid) = true := by
  have hpl := pollLoop_fails_on_bad_response url jid pt pre bad rest hbad hpre
  constructor
  · simp [execute, mkdir, hjid, hnew, hpi, hok, hpoll, hpl]
  · have h2 : (execute ⟨ppd, url, pt, false, some jid⟩ env fs data outs).2.1 =
        ⟨(pathJoin ppd jid, 0) :: fs.dirs⟩ := by
      simp [execute, mkdir, hjid, hnew, hpi, hok, hpoll, hpl]
    rw [h2]
    exact existsDir_after_mkdir fs (pathJoin ppd jid)

/-- In-progress job info reported while the remote job is still running. -/
def progressInfo : RemoteJobInfo := ⟨"abc123", ⟨some false, 0, ""⟩⟩

/-- HTTP 200 poll response whose body parses to `progressInfo`. -/
def progressResp : HttpResponse := ⟨true, none, some progressInfo, "response[200]"⟩

/-- Witness for C3: one in-progress poll, then an HTTP 400 poll. -/
theorem poll_failure_retains_dir_witness :
    (execute ⟨"/data/proc", "http://executor/api/", 3, false, some "abc123"⟩
        ⟨okPrepareInput, okPrepareOutput, respDone, [progressResp, resp400]⟩
        ⟨[]⟩ [] none).1 = .raised (failureResponseError resp400) ∧
      ((execute ⟨"/data/proc", "http://executor/api/", 3, false, some "abc123"⟩
        ⟨okPrepareInput, okPrepareOutput, respDone, [progressResp, resp400]⟩
        ⟨[]⟩ [] none).2.1).existsDir "/data/proc/abc123" = true := by
  exact poll_failure_retains_dir "/data/proc" "http://executor/api/" 3 "abc123"
    ⟨okPrepareInput, okPrepareOutput, respDone, [progressResp, resp400]⟩
    ⟨[]⟩ [] none [] [progressResp] resp400 [] (by decide) (by decide) rfl rfl
    rfl rfl
    (by intro r hr
        simp only [List.mem_singleton] at hr
        subst hr
        exact ⟨rfl, progressInfo, rfl, rfl⟩)

/-- C7: the poll loop exits normally only with a body whose
`end_processing` is true; it has no iteration cap — for every `n`, after `n`
in-progress responses a terminal response still ends the loop with that
response's info; and any terminal info with non-zero exit code makes the
shared tail of `execute` raise the job-failure error, whatever its other
fields hold. -/
theorem poll_loop_contract (url jid : String) (pt : Nat) :
    (∀ rs info, (pollLoop url jid pt rs).2 = .finished info →
        info.job_info.end_processing = some true) ∧
    (∀ (n : Nat) (progress fin : HttpResponse) (ip fi : RemoteJobInfo),
        progress.ok = true → progress.jsonInfo = some ip →
        ip.job_info.end_processing = some false →
        fin.ok = true → fin.jsonInfo = some fi →
        fi.job_info.end_processing = some true →
        (pollLoop url jid pt (List.replicate n progress ++ [fin])).2 =
          .finished fi) ∧
    (∀ (env : Env) (fs : FS) (wd : String) (outs : Option OutputsSel)
        (info : RemoteJobInfo), info.job_info.exit_code ≠ 0 →
        (finishJob env fs wd outs info).1 =
          .raised (.ProcessorExecuteErrorMsg (callerJobFailureMessage info))) := by
  refine ⟨?_, ?_, ?_⟩
  · intro rs
    induction rs with
    | nil => intro info h; simp [pollLoop] at h
    | cons resp rest ih =>
      intro info h
      cases hok : resp.ok with
      | false => simp [pollLoop, hok] at h
      | true =>
        cases hji : resp.jsonInfo with
        | none => simp [pollLoop, hok, hji] at h
        | some i =>
          cases hep : i.job_info.end_processing with
          | none => simp [pollLoop, hok, hji, hep] at h
          | some b =>
            cases b with
            | false =>
              simp only [pollLoop, hok, hji, hep] at h
              simp only [if_true] at h
              exact ih info (by simpa using h)
            | true =>
              simp [pollLoop, hok, hji, hep] at h
              simpa [← h] using hep
  · intro n progress fin ip fi hpok hpji hpep hfok hfji hfep
    induction n with
    | zero => simp [pollLoop, hfok, hfji, hfep]
    | succ k ih =>
      rw [List.replicate_succ, List.cons_append]
      simp [pollLoop, hpok, hpji, hpep, ih]
  · intro env fs wd outs info hec
    simp [finishJob, hec]

/-- Witness for C7: two in-progress polls, then a terminal success; and the
shared tail raising on `failedInfo`. -/
theorem poll_loop_contract_witness :
    (pollLoop "http://executor/api/" "abc123" 3
        (List.replicate 2 progressResp ++ [respDone])).2 = .finished doneInfo ∧
      (finishJob ⟨okPrepareInput, okPrepareOutput, respDone, []⟩ ⟨[]⟩
          "/data/proc/abc123" none failedInfo).1 =
        .raised (.ProcessorExecuteErrorMsg (callerJobFailureMessage failedInfo)) := by
  refine ⟨?_, ?_⟩
  · exact (poll_loop_contract "http://executor/api/" "abc123" 3).2.1 2
      progressResp respDone progressInfo doneInfo rfl rfl rfl rfl rfl rfl
  · exact (poll_loop_contract "http://executor/api/" "abc123" 3).2.2
      ⟨okPrepareInput, okPrepareOutput, respDone, []⟩ ⟨[]⟩
      "/data/proc/abc123" none failedInfo (by decide)

end RemoteExec
